import Mathlib

/-!
# Verification of `wagtailimportexport/exporting.py`

Shallow embedding of the export core of the wagtail-import-export repository
(single source file `src/wagtailimportexport/exporting.py`), together with
theorems settling the claims about it.

Modelling conventions:
* Page paths are Wagtail materialized paths: fixed-width steps, parent
  obtained by truncating the last `steplen` characters.  A path character is
  modelled as a `Nat`, a path as `List Nat`.
* Django model instances are records; `Model.objects.get(pk=...)` is a lookup
  in an explicit database record `DB`, returning `Option` (`none` models the
  `DoesNotExist` exception).
* Python generators are modelled as the pair of the list of objects they
  yield and an optional error raised after those yields
  (`List FObj × Option ExportErr`).
* Exceptions are modelled with `Except ExportErr`.  Unbound-name references
  in the source (it has several) are modelled as `ExportErr.nameError`
  carrying the unbound name; iterating Python `None` is
  `ExportErr.typeError`; a missing dict key is `ExportErr.keyError`.
* Python's bounded call stack is modelled by an explicit fuel parameter on
  the recursive `build_page_data`; fuel exhaustion is
  `ExportErr.recursionError`.
* `.specific` / `.specific()` (resolving the most-derived page type) is the
  identity here: `PageRec` already is the specific representation.
-/

/-- Wagtail's `Page.steplen`: number of path characters per tree level
(used at exporting.py line 55). -/
def steplen : Nat := 4

/-- A materialized path, one `Nat` per path character. -/
abbrev PagePath := List Nat

/-- `page.path[:-(Page.steplen)]` (exporting.py line 55): the parent's path,
obtained by dropping the final step.  Python slicing with a negative stop
yields `''` when the path is no longer than one step, matching `List.take`
with truncated subtraction. -/
def parentPath (p : PagePath) : PagePath := p.take (p.length - steplen)

/-- Python `x in list` / `x not in list` membership on paths (lines 58, 60). -/
def pathIn (p : PagePath) : List PagePath → Bool
  | [] => false
  | q :: qs => p == q || pathIn p qs

/-- The four chooser block classes of `CHOOSER_BLOCKS` (line 17):
PageChooserBlock, ImageChooserBlock, DocumentChooserBlock,
SnippetChooserBlock. -/
inductive ChooserKind where
  | page
  | image
  | document
  | snippet
deriving DecidableEq

/-- A Wagtail block definition, as far as the walker inspects it: chooser
blocks, StructBlock / StreamBlock (each with named child blocks), or any
other block class. -/
inductive Block where
  | chooser (kind : ChooserKind)
  | structBlock (children : List (String × Block))
  | streamBlock (children : List (String × Block))
  | otherBlock

/-- One item of `stream_data`: a dict `{'type': ..., 'value': ...}` where the
value, for the chooser blocks the code actually reads it on, is a primary
key. -/
structure StreamItem where
  type : String
  value : Nat

/-- A `StreamValue`: its `stream_block` schema and its `stream_data`. -/
structure StreamValue where
  stream_block : Block
  stream_data : List StreamItem

/-- The Django model a foreign key points at (`related_model`, line 102). -/
inductive ModelRef where
  | page
  | image
  | document
  | snippet
  | other
deriving DecidableEq

/-- One entry of a page's `__dict__`, pre-classified by the conditions of
exporting.py lines 98-105: `fk target pk` is a data key ending in `_id`
whose base name is declared on the class as a `ForeignKey` (with the stored
value `pk`, `none` for SQL NULL); `streamField` is an entry whose stored
value is a `StreamValue`; `otherField` is anything else (neither branch
fires). -/
inductive FieldValue where
  | fk (target : ModelRef) (pk : Option Nat)
  | streamField (sv : StreamValue)
  | otherField

/-- A page row: id (primary key), materialized path, `live` flag, content
type (`content_type.model` / `content_type.app_label`, lines 133-134) and
its field dict in iteration (= insertion) order. -/
structure PageRec where
  id : Nat
  path : PagePath
  live : Bool
  model : String
  app_label : String
  fields : List FieldValue

/-- An image row (only the class identity matters to `get_one_image_data`). -/
structure ImageRec where
  id : Nat
  classname : String
  module : String
deriving DecidableEq

/-- A document row. -/
structure DocumentRec where
  id : Nat
deriving DecidableEq

/-- A snippet row. -/
structure SnippetRec where
  id : Nat
deriving DecidableEq

/-- The database the export reads: the stores behind `Page.objects`,
`Image`, `Document`, the snippet models, and any other FK-reachable model
(the latter kept only as a set of existing primary keys). -/
structure DB where
  pages : List PageRec
  images : List ImageRec
  documents : List DocumentRec
  snippets : List SnippetRec
  others : List Nat

/-- An object yielded by the reference walker, tagged by which `isinstance`
test of lines 66-78 it satisfies. -/
inductive FObj where
  | image (i : ImageRec)
  | document (d : DocumentRec)
  | snippet (s : SnippetRec)
  | page (p : PageRec)
  | other (pk : Nat)

/-- Errors an export run can raise. -/
inductive ExportErr where
  | notImplemented
  | nameError (name : String)
  | doesNotExist
  | typeError
  | keyError
  | recursionError
deriving DecidableEq

def findPage (db : DB) (pk : Nat) : Option PageRec :=
  db.pages.find? (fun p => p.id == pk)

def findImage (db : DB) (pk : Nat) : Option ImageRec :=
  db.images.find? (fun i => i.id == pk)

def findDocument (db : DB) (pk : Nat) : Option DocumentRec :=
  db.documents.find? (fun d => d.id == pk)

def findSnippet (db : DB) (pk : Nat) : Option SnippetRec :=
  db.snippets.find? (fun s => s.id == pk)

/-- `Model.objects.get(pk=pk)` (line 103): primary-key lookup in the related
model's store; `none` is Django's `DoesNotExist`. -/
def modelGet (db : DB) : ModelRef → Nat → Option FObj
  | .page, pk => (findPage db pk).map FObj.page
  | .image, pk => (findImage db pk).map FObj.image
  | .document, pk => (findDocument db pk).map FObj.document
  | .snippet, pk => (findSnippet db pk).map FObj.snippet
  | .other, pk => if db.others.contains pk then some (FObj.other pk) else none

/-- The body of `walk_page_foreign_key_objects` (lines 97-108), over the
page's field dict in order.  A non-null FK is resolved with `modelGet` and
its object yielded (a failed lookup raises `DoesNotExist`).  A
`StreamValue`-valued entry reaches line 106, which reads the unbound name
`stream_value` (the source never assigned it), so it raises
`NameError("stream_value")` before any walking happens.  The result pairs
the yielded objects with the error, if any, that the generator raises after
them. -/
def walkPageFields (db : DB) : List FieldValue → List FObj × Option ExportErr
  | [] => ([], none)
  | .fk target (some pk) :: rest =>
    match modelGet db target pk with
    | some obj =>
      let r := walkPageFields db rest
      (obj :: r.1, r.2)
    | none => ([], some .doesNotExist)
  | .fk _ none :: rest => walkPageFields db rest
  | .streamField _ :: _ => ([], some (.nameError "stream_value"))
  | .otherField :: rest => walkPageFields db rest

/-- `walk_page_foreign_key_objects(page)` (lines 92-108). -/
def walk_page_foreign_key_objects (db : DB) (page : PageRec) :
    List FObj × Option ExportErr :=
  walkPageFields db page.fields

/-- `stream_block.child_blocks` (line 113). -/
def child_blocks : Block → List (String × Block)
  | .structBlock cs => cs
  | .streamBlock cs => cs
  | _ => []

/-- `child_blocks[block_data['type']]` (line 116); `none` is a `KeyError`. -/
def lookupChild (cs : List (String × Block)) (t : String) : Option Block :=
  (cs.find? (fun c => c.1 == t)).map (fun c => c.2)

/-- The chooser's target model (`PageChooserBlock` chooses pages, etc.). -/
def chooserModel : ChooserKind → ModelRef
  | .page => .page
  | .image => .image
  | .document => .document
  | .snippet => .snippet

/-- `walk_block_foreign_key_objects` (lines 126-127): its body is `pass`, so
calling it returns Python `None` — modelled as `Option.none` (it is not a
generator and yields nothing). -/
def walk_block_foreign_key_objects (_struct_block : Block)
    (_struct_data : StreamItem) : Option (List FObj) := none

/-- The loop body of `walk_stream_foreign_key_objects` (lines 114-124).
For each item: resolve its declared type in `child_blocks` (`KeyError` if
absent); a chooser block decodes its value via `value_from_form`, i.e. a
primary-key lookup against the chooser's model, and yields the object; a
`StructBlock` or `StreamBlock` runs
`for obj in walk_block_foreign_key_objects(block, item)` — since that stub
returns `None`, iterating it raises `TypeError`.  The source's final
`elif isinstance(block, StreamBlock)` (lines 122-124) is unreachable dead
code: the test on line 119 already matched every `StreamBlock`, so it is not
represented by a reachable branch here.  Any other block class yields
nothing. -/
def walkStreamData (db : DB) (cbs : List (String × Block)) :
    List StreamItem → List FObj × Option ExportErr
  | [] => ([], none)
  | item :: rest =>
    match lookupChild cbs item.type with
    | none => ([], some .keyError)
    | some block =>
      match block with
      | .chooser kind =>
        match modelGet db (chooserModel kind) item.value with
        | some obj =>
          let r := walkStreamData db cbs rest
          (obj :: r.1, r.2)
        | none => ([], some .doesNotExist)
      | .structBlock _ =>
        match walk_block_foreign_key_objects block item with
        | none => ([], some .typeError)
        | some objs =>
          let r := walkStreamData db cbs rest
          (objs ++ r.1, r.2)
      | .streamBlock _ =>
        match walk_block_foreign_key_objects block item with
        | none => ([], some .typeError)
        | some objs =>
          let r := walkStreamData db cbs rest
          (objs ++ r.1, r.2)
      | .otherBlock => walkStreamData db cbs rest

/-- `walk_stream_foreign_key_objects(stream_block, stream_data)`
(lines 111-124). -/
def walk_stream_foreign_key_objects (db : DB) (stream_block : Block)
    (stream_data : List StreamItem) : List FObj × Option ExportErr :=
  walkStreamData db (child_blocks stream_block) stream_data

/-- The serialized form of a page produced by `get_one_page_data`
(lines 130-135): the page content (`json.loads(page.to_json())`, kept
opaque as the page record itself) plus content-type model and app label. -/
structure SerializedPage where
  content : PageRec
  model : String
  app_label : String

/-- `get_one_page_data(page)` (lines 130-135). -/
def get_one_page_data (page : PageRec) : SerializedPage :=
  { content := page, model := page.model, app_label := page.app_label }

/-- The serialized form of an image produced by `get_one_image_data`
(lines 138-142): only the class name and module of the image. -/
structure SerializedImage where
  classname : String
  module : String
deriving DecidableEq

/-- `get_one_image_data(image)` (lines 138-142).  Note that
`build_page_data` never reaches it: line 67 calls the unbound name
`get_image_data` instead. -/
def get_one_image_data (image : ImageRec) : SerializedImage :=
  { classname := image.classname, module := image.module }

/-- `get_one_snippet_data` (lines 145-146): a `pass` stub returning None. -/
def get_one_snippet_data (_snippet : SnippetRec) : Option Unit := none

/-- `get_one_document_data` (lines 149-150): a `pass` stub returning None. -/
def get_one_document_data (_document : DocumentRec) : Option Unit := none

/-- The `page_data` accumulator dict (line 52) with its four keys.  The
snippet and document collections are typed `List Unit`; no element type is
ever observable because the appends on lines 73 and 77 sit after calls to
the unbound names `get_document_data` / `get_snippet_data` and are never
reached. -/
structure PageData where
  pages : List SerializedPage
  images : List SerializedImage
  snippets : List Unit
  documents : List Unit

/-- `{'pages': [], 'images': [], 'snippets': [], 'documents': []}`
(line 52). -/
def emptyPageData : PageData := ⟨[], [], [], []⟩

/-- The body of the `for obj in walk_page_foreign_key_objects(page)` loop
(lines 65-79), classifying each yielded object by the `isinstance` chain.
The Image, Document and Snippet branches call `get_image_data` (line 67),
`get_document_data` (line 71) and `get_snippet_data` (line 75); none of
those names is defined or imported in the module (the serializers are named
`get_one_image_data` etc.), so reaching any of those branches raises a
`NameError` — in particular the dedup appends behind them never run and
`page_data` is never modified here.  A yielded `Page` is appended to
`linked_pages` via `.specific` (the identity in this model, line 79); any
other object falls through every `isinstance` test and is ignored. -/
def processObjs : List FObj → PageData → List PageRec →
    Except ExportErr (PageData × List PageRec)
  | [], pd, linked => .ok (pd, linked)
  | .image _ :: _, _, _ => .error (.nameError "get_image_data")
  | .document _ :: _, _, _ => .error (.nameError "get_document_data")
  | .snippet _ :: _, _, _ => .error (.nameError "get_snippet_data")
  | .page p :: rest, pd, linked => processObjs rest pd (linked ++ [p])
  | .other _ :: rest, pd, linked => processObjs rest pd linked

/-- The `for (i, page) in enumerate(pages)` loop of `build_page_data`
(lines 54-87), factored over `recur`, the recursive `build_page_data` call
it makes on lines 82-87.  A page is admitted iff `i == 0 or (parent_path in
exported_paths) and page.path not in exported_paths` (line 58, with
Python's `and` binding tighter than `or`).  An admitted page's record and
path are appended (lines 59-60); with `include_linked_assets == True` the
walker's yields are classified (`processObjs`), an error the generator
raised after its yields propagates, and the collected linked pages are fed
back through `recur`, sharing the same accumulators (lines 61-87). -/
def buildLoop (db : DB)
    (recur : List PageRec → List PagePath → PageData →
      Except ExportErr (PageData × List PagePath)) :
    List PageRec → Nat → List PagePath → PageData → Bool →
      Except ExportErr (PageData × List PagePath)
  | [], _, exported_paths, page_data, _ => .ok (page_data, exported_paths)
  | page :: rest, i, exported_paths, page_data, include_linked_assets =>
    if i == 0 ||
        (pathIn (parentPath page.path) exported_paths &&
          !(pathIn page.path exported_paths)) then
      let pd1 : PageData :=
        { page_data with pages := page_data.pages ++ [get_one_page_data page] }
      let ep1 := exported_paths ++ [page.path]
      if include_linked_assets == true then
        let w := walk_page_foreign_key_objects db page
        match processObjs w.1 pd1 [] with
        | .error e => .error e
        | .ok (pd2, linked) =>
          match w.2 with
          | some e => .error e
          | none =>
            match recur linked ep1 pd2 with
            | .error e => .error e
            | .ok (pd3, ep3) =>
              buildLoop db recur rest (i + 1) ep3 pd3 include_linked_assets
      else
        buildLoop db recur rest (i + 1) ep1 pd1 include_linked_assets
    else
      buildLoop db recur rest (i + 1) exported_paths page_data
        include_linked_assets

/-- `build_page_data(pages, exported_paths=None, page_data=None,
include_linked_assets=False)` (lines 48-89).  The `Option` arguments mirror
the Python `None` defaults resolved on lines 49-52.  `fuel` models Python's
bounded recursion depth: the recursive call on lines 82-87 can recurse
without bound (linked pages can link back), and exhausting the stack is
Python's `RecursionError`.  The result pairs the returned `page_data` with
the final `exported_paths`, because the Python caller shares the mutated
`exported_paths` list by aliasing. -/
def build_page_data (db : DB) :
    Nat → List PageRec → Option (List PagePath) → Option PageData → Bool →
      Except ExportErr (PageData × List PagePath)
  | 0, _, _, _, _ => .error .recursionError
  | fuel + 1, pages, exported_paths0, page_data0, include_linked_assets =>
    buildLoop db
      (fun ps ep pd =>
        build_page_data db fuel ps (some ep) (some pd) include_linked_assets)
      pages 0 (exported_paths0.getD []) (page_data0.getD emptyPageData)
      include_linked_assets

/-- Lexicographic comparison of paths, the ordering behind
`order_by('path')` (line 37). -/
def pathLe : PagePath → PagePath → Bool
  | [], _ => true
  | _ :: _, [] => false
  | a :: as, b :: bs =>
    if a < b then true else if b < a then false else pathLe as bs

/-- Insertion step of the path sort. -/
def insertByPath (p : PageRec) : List PageRec → List PageRec
  | [] => [p]
  | q :: qs => if pathLe p.path q.path then p :: q :: qs else q :: insertByPath p qs

/-- `order_by('path')`: sort ascending by path. -/
def sortByPath : List PageRec → List PageRec
  | [] => []
  | p :: ps => insertByPath p (sortByPath ps)

/-- Materialized-path descendant test: `root` is an initial segment of
`p`. -/
def underPath : PagePath → PagePath → Bool
  | [], _ => true
  | _ :: _, [] => false
  | a :: as, b :: bs => a == b && underPath as bs

/-- `Page.objects.descendant_of(root_page, inclusive=True).order_by('path')
.specific()` (line 37): every stored page whose path extends the root's,
ascending by path (`.specific()` is the identity here). -/
def descendantsOf (pages : List PageRec) (root : PageRec) : List PageRec :=
  sortByPath (pages.filter (fun p => underPath root.path p.path))

/-- The candidate sequence fed to `build_page_data` by `export_pages`
(lines 37-39): descendants of the root in path order, restricted to live
pages unless `export_unpublished`. -/
def candidatePages (db : DB) (root : PageRec) (export_unpublished : Bool) :
    List PageRec :=
  let pages := descendantsOf db.pages root
  if export_unpublished then pages else pages.filter (fun p => p.live)

/-- `export_pages(root_page, export_unpublished=False,
include_linked_assets=False)` (lines 20-45).  `build_page_data` is invoked
first (line 41); only afterwards does line 42 branch: without linked assets
the built page data is returned, with them `NotImplementedError` is raised
(lines 44-45). -/
def export_pages (db : DB) (fuel : Nat) (root : PageRec)
    (export_unpublished : Bool) (include_linked_assets : Bool) :
    Except ExportErr PageData :=
  match build_page_data db fuel (candidatePages db root export_unpublished)
      none none include_linked_assets with
  | .error e => .error e
  | .ok (pd, _) =>
    if include_linked_assets then .error .notImplemented else .ok pd

/-! ## General lemmas about the export core -/

/-- With `include_linked_assets = False`, the admission loop of
`build_page_data` can neither fail nor touch the `images` / `snippets` /
`documents` collections: it only ever appends to `pages` and
`exported_paths` (the whole of lines 61-87 is skipped). -/
lemma buildLoop_no_assets (db : DB)
    (recur : List PageRec → List PagePath → PageData →
      Except ExportErr (PageData × List PagePath)) :
    ∀ (pages : List PageRec) (i : Nat) (ep : List PagePath)
      (ps : List SerializedPage),
      ∃ ps2 ep2,
        buildLoop db recur pages i ep ⟨ps, [], [], []⟩ false =
          .ok (⟨ps2, [], [], []⟩, ep2) := by
  intro pages
  induction pages with
  | nil => intro i ep ps; exact ⟨ps, ep, rfl⟩
  | cons page rest ih =>
    intro i ep ps
    by_cases hc : (i == 0 ||
        (pathIn (parentPath page.path) ep && !(pathIn page.path ep))) = true
    · obtain ⟨ps2, ep2, hh⟩ := ih (i + 1) (ep ++ [page.path])
        (ps ++ [get_one_page_data page])
      refine ⟨ps2, ep2, ?_⟩
      simp only [buildLoop, hc, if_true]
      exact hh
    · obtain ⟨ps2, ep2, hh⟩ := ih (i + 1) ep ps
      refine ⟨ps2, ep2, ?_⟩
      simp only [buildLoop, hc, if_false]
      exact hh

/-- If `p` is the prefix of `q` of `p`'s own length then `q` lies under
`p`. -/
lemma underPath_of_take {p q : PagePath} (h : q.take p.length = p) :
    underPath p q = true := by
  induction p generalizing q with
  | nil => rfl
  | cons a as ih =>
    cases q with
    | nil => simp at h
    | cons b bs =>
      simp only [List.length_cons, List.take_succ_cons, List.cons.injEq] at h
      obtain ⟨hb, ht⟩ := h
      subst hb
      simp [underPath, ih ht]

/-- A path is `pathLe` any path extending it. -/
lemma pathLe_of_take {p q : PagePath} (h : q.take p.length = p) :
    pathLe p q = true := by
  induction p generalizing q with
  | nil => rfl
  | cons a as ih =>
    cases q with
    | nil => simp at h
    | cons b bs =>
      simp only [List.length_cons, List.take_succ_cons, List.cons.injEq] at h
      obtain ⟨hb, ht⟩ := h
      subst hb
      simp [pathLe, ih ht]

/-! ## Claim C1 -/

/-- C1 fixture: a live root page whose body links (by page foreign key) to
the page `Q1`, which lives in a completely different part of the tree. -/
def R1 : PageRec :=
  ⟨1, [1, 1, 1, 1], true, "page", "tests", [FieldValue.fk ModelRef.page (some 2)]⟩

/-- C1 fixture: a page whose parent (path `[5,5,5,5]`) is nowhere in the
export. -/
def Q1 : PageRec := ⟨2, [5, 5, 5, 5, 6, 6, 6, 6], true, "page", "tests", []⟩

/-- C1 fixture database. -/
def db1 : DB := ⟨[R1, Q1], [], [], [], []⟩

/-- Claim C1 (code bug): exporting from root `R1` with asset-following
enabled admits the linked page `Q1` even though `Q1`'s parent path is
nowhere in the output: the recursive call on lines 82-87 re-enters the loop
of line 54, where the `i == 0` disjunct of line 58 admits the first linked
page unconditionally.  `Q1` ends up in the output pages collection while
`parentPath Q1.path` is in neither the output nor the exported-paths set,
and `Q1` is not the designated root (`R1` is), contradicting the claim's
no-orphans invariant. -/
theorem c1_orphan_linked_page_exported :
    candidatePages db1 R1 false = [R1] ∧
    build_page_data db1 3 (candidatePages db1 R1 false) none none true =
      .ok (⟨[get_one_page_data R1, get_one_page_data Q1], [], [], []⟩,
           [R1.path, Q1.path]) ∧
    pathIn (parentPath Q1.path) [R1.path, Q1.path] = false ∧
    Q1.path ≠ R1.path :=
  ⟨rfl, rfl, rfl, by decide⟩

/-! ## Claim C2 -/

/-- C2 fixture: a live root page with no references of its own. -/
def R2 : PageRec := ⟨1, [1, 1, 1, 1], true, "page", "tests", []⟩

/-- C2 fixture: a live child of `R2` that links back to `R2` by a page
foreign key. -/
def B2 : PageRec :=
  ⟨2, [1, 1, 1, 1, 2, 2, 2, 2], true, "page", "tests",
   [FieldValue.fk ModelRef.page (some 1)]⟩

/-- C2 fixture database. -/
def db2 : DB := ⟨[R2, B2], [], [], [], []⟩

/-- Claim C2 (code bug): `R2` is reachable both by direct tree descent
(it is the root of the candidate sequence) and via the cross-page link on
its child `B2`, yet it appears TWICE in the output pages collection.  The
`page.path not in exported_paths` guard of line 58 is bypassed by the
`i == 0` disjunct when the recursive call of lines 82-87 processes
`B2`'s linked-pages list, whose first element is `R2` — even though
`R2.path` is already in the shared exported-paths set. -/
theorem c2_linked_page_exported_twice :
    candidatePages db2 R2 false = [R2, B2] ∧
    build_page_data db2 3 (candidatePages db2 R2 false) none none true =
      .ok (⟨[get_one_page_data R2, get_one_page_data B2,
             get_one_page_data R2], [], [], []⟩,
           [R2.path, B2.path, R2.path]) :=
  ⟨rfl, rfl⟩

/-! ## Claim C3 -/

/-- C3 fixture: an image row. -/
def img3 : ImageRec := ⟨1, "CustomImage", "tests.models"⟩

/-- C3 fixture: a live page with a non-null image foreign key. -/
def P3 : PageRec :=
  ⟨1, [1, 1, 1, 1], true, "page", "tests",
   [FieldValue.fk ModelRef.image (some 1)]⟩

/-- C3 fixture database. -/
def db3 : DB := ⟨[P3], [img3], [], [], []⟩

/-- Claim C3 (code bug): with asset-following enabled the walker correctly
yields the referenced image, but the traversal does NOT classify, serialize
and append it — line 67 of `build_page_data` calls `get_image_data`, a name
that is neither defined nor imported in the module (the serializer is named
`get_one_image_data`), so the run raises `NameError` instead of building
the deduplicated images collection.  The document and snippet branches
(lines 71, 75) have the same defect. -/
theorem c3_image_asset_raises_name_error :
    walk_page_foreign_key_objects db3 P3 = ([FObj.image img3], none) ∧
    build_page_data db3 2 (candidatePages db3 P3 false) none none true =
      .error (ExportErr.nameError "get_image_data") :=
  ⟨rfl, rfl⟩

/-! ## Claim C4 -/

/-- C4 fixture: an UNPUBLISHED root page. -/
def A4 : PageRec := ⟨1, [1, 1, 1, 1], false, "page", "tests", []⟩

/-- C4 fixture: a live (published) child of the unpublished root `A4`. -/
def B4 : PageRec := ⟨2, [1, 1, 1, 1, 2, 2, 2, 2], true, "page", "tests", []⟩

/-- C4 fixture database. -/
def db4 : DB := ⟨[A4, B4], [], [], [], []⟩

/-- Claim C4 (code bug): with `export_unpublished=False` and the designated
root `A4` itself unpublished, its published descendant `B4` IS exported:
the live-only filter of lines 38-39 removes `A4` from the candidate
sequence, which leaves `B4` at index 0, and the `i == 0` disjunct of
line 58 admits it unconditionally — so the exclusion of an unpublished
page does not cascade when that page is the designated root, contradicting
the claim and the docstring of `export_pages` (lines 27-30). -/
theorem c4_unpublished_root_descendant_exported :
    A4.live = false ∧ underPath A4.path B4.path = true ∧ B4.live = true ∧
    export_pages db4 2 A4 false false =
      .ok ⟨[get_one_page_data B4], [], [], []⟩ :=
  ⟨rfl, rfl, rfl, rfl⟩

/-! ## Claim C5 -/

/-- C5 fixture: an image row. -/
def img5 : ImageRec := ⟨1, "CustomImage", "tests.models"⟩

/-- C5 fixture: a live page with a non-null image foreign key. -/
def P5 : PageRec :=
  ⟨1, [1, 1, 1, 1], true, "page", "tests",
   [FieldValue.fk ModelRef.image (some 1)]⟩

/-- C5 fixture database. -/
def db5 : DB := ⟨[P5], [img5], [], [], []⟩

/-- Claim C5 counterexample: `export_pages` with
`include_linked_assets=True` does NOT always raise `NotImplementedError`:
`build_page_data` runs first (line 41), and on a page with an image foreign
key it raises `NameError("get_image_data")` (line 67) before line 45 is
ever reached. -/
theorem c5_raises_name_error_not_notimplemented :
    export_pages db5 2 P5 false true =
      .error (ExportErr.nameError "get_image_data") ∧
    export_pages db5 2 P5 false true ≠ .error ExportErr.notImplemented := by
  have h1 : export_pages db5 2 P5 false true =
      .error (ExportErr.nameError "get_image_data") := rfl
  refine ⟨h1, ?_⟩
  intro h
  rw [h1] at h
  exact ExportErr.noConfusion (Except.error.inj h)

/-- Claim C5 as amended: with `include_linked_assets=True`, `export_pages`
never returns a result; it raises `NotImplementedError` whenever the
underlying `build_page_data` traversal completes without error, and
otherwise propagates the traversal's own error (because line 41 runs the
traversal before line 45 raises).  With `include_linked_assets=False` (and
enough stack) it returns the built page data without raising. -/
theorem c5_entry_point_always_fails (db : DB) (fuel : Nat) (root : PageRec)
    (eu : Bool) :
    (∀ pd, export_pages db fuel root eu true ≠ .ok pd) ∧
    (∀ pd,
      build_page_data db fuel (candidatePages db root eu) none none true =
        .ok pd →
      export_pages db fuel root eu true = .error ExportErr.notImplemented) ∧
    (∀ e,
      build_page_data db fuel (candidatePages db root eu) none none true =
        .error e →
      export_pages db fuel root eu true = .error e) ∧
    (∃ pd, export_pages db (fuel + 1) root eu false = .ok pd) := by
  refine ⟨?_, ?_, ?_, ?_⟩
  · intro pd h
    unfold export_pages at h
    rcases hb : build_page_data db fuel (candidatePages db root eu) none none
        true with e | pr
    · rw [hb] at h; cases h
    · obtain ⟨pd1, ep1⟩ := pr
      rw [hb] at h
      simp at h
  · intro pd hb
    unfold export_pages
    rw [hb]
    obtain ⟨pd1, ep1⟩ := pd
    rfl
  · intro e hb
    unfold export_pages
    rw [hb]
  · obtain ⟨ps2, ep2, hh⟩ := buildLoop_no_assets db
      (fun ps ep pd => build_page_data db fuel ps (some ep) (some pd) false)
      (candidatePages db root eu) 0 [] []
    refine ⟨⟨ps2, [], [], []⟩, ?_⟩
    unfold export_pages
    have hb : build_page_data db (fuel + 1) (candidatePages db root eu) none
        none false = .ok (⟨ps2, [], [], []⟩, ep2) := hh
    rw [hb]
    rfl

/-- Witness for C5's amended theorem at a concrete input: with assets
requested the run never returns `.ok`, and here it fails with the
propagated `NameError` of the traversal. -/
theorem c5_entry_point_always_fails_witness :
    (∀ pd, export_pages db5 2 P5 false true ≠ .ok pd) ∧
    export_pages db5 2 P5 false true =
      .error (ExportErr.nameError "get_image_data") :=
  ⟨(c5_entry_point_always_fails db5 2 P5 false).1,
   (c5_entry_point_always_fails db5 2 P5 false).2.2.1
     (ExportErr.nameError "get_image_data") rfl⟩

/-! ## Claim C6 -/

/-- C6 fixture: an image row referenced from inside a struct block. -/
def img6 : ImageRec := ⟨1, "CustomImage", "tests.models"⟩

/-- C6 fixture: a stream block whose child `"st"` is a StructBlock that
contains an image chooser. -/
def sb6 : Block :=
  Block.streamBlock
    [("st", Block.structBlock [("img", Block.chooser ChooserKind.image)])]

/-- C6 fixture database. -/
def db6 : DB := ⟨[], [img6], [], [], []⟩

/-- Claim C6 (code bug): when a block-data item's declared type resolves to
a structural (struct) block, the walker does NOT recurse into its
sub-schema and sub-data: line 120 iterates the result of
`walk_block_foreign_key_objects`, whose body is `pass` (lines 126-127), so
it iterates Python `None` and raises `TypeError` — the image chooser nested
inside the struct block is never reached.  The nested-stream branch of
lines 122-124 is unreachable dead code (line 119 already matched every
`StreamBlock`), so nested stream blocks take the same failing path. -/
theorem c6_struct_block_stub_type_error :
    walk_block_foreign_key_objects
      (Block.structBlock [("img", Block.chooser ChooserKind.image)])
      ⟨"st", 1⟩ = none ∧
    walk_stream_foreign_key_objects db6 sb6 [⟨"st", 1⟩] =
      ([], some ExportErr.typeError) :=
  ⟨rfl, rfl⟩

/-! ## Claim C7 -/

/-- C7 fixture: an image row referenced by a chooser block in a stream
value. -/
def img7 : ImageRec := ⟨1, "CustomImage", "tests.models"⟩

/-- C7 fixture: a stream value holding one image-chooser item. -/
def sv7 : StreamValue :=
  ⟨Block.streamBlock [("img", Block.chooser ChooserKind.image)], [⟨"img", 1⟩]⟩

/-- C7 fixture: a live page one of whose fields stores the stream value
`sv7`. -/
def page7 : PageRec :=
  ⟨1, [1, 1, 1, 1], true, "page", "tests", [FieldValue.streamField sv7]⟩

/-- C7 fixture database. -/
def db7 : DB := ⟨[], [img7], [], [], []⟩

/-- Claim C7 (code bug): on a page whose field stores a `StreamValue`, the
Reference Walker raises `NameError` instead of walking it: line 106 of
`walk_page_foreign_key_objects` reads `stream_value`, a name never bound in
the function (the value sits in `page_dict[data_key]`).  The second
conjunct shows the stream walker itself would have yielded the referenced
image had it been called with the field's stream block and data. -/
theorem c7_stream_field_raises_name_error :
    walk_page_foreign_key_objects db7 page7 =
      ([], some (ExportErr.nameError "stream_value")) ∧
    walk_stream_foreign_key_objects db7 sv7.stream_block sv7.stream_data =
      ([FObj.image img7], none) :=
  ⟨rfl, rfl⟩

/-! ## Claim C8 -/

/-- Claim C8: a direct foreign-key field whose stored value is non-null but
matches no row of the related model makes the walk raise `DoesNotExist`
immediately (line 103, `Model.objects.get`): nothing is yielded past the
dangling reference, it is not silently skipped, and a `build_page_data`
run with asset-following enabled over such a page aborts with the lookup
failure. -/
theorem c8_dangling_fk_lookup_failure (db : DB) (page : PageRec)
    (t : ModelRef) (pk : Nat) (rest : List FieldValue)
    (hf : page.fields = FieldValue.fk t (some pk) :: rest)
    (hmiss : modelGet db t pk = none) :
    walk_page_foreign_key_objects db page = ([], some ExportErr.doesNotExist) ∧
    ∀ fuel ep0 pd0,
      build_page_data db (fuel + 1) [page] ep0 pd0 true =
        .error ExportErr.doesNotExist := by
  have hw : walk_page_foreign_key_objects db page =
      ([], some ExportErr.doesNotExist) := by
    unfold walk_page_foreign_key_objects
    rw [hf]
    simp [walkPageFields, hmiss]
  refine ⟨hw, ?_⟩
  intro fuel ep0 pd0
  simp [build_page_data, buildLoop, hw, processObjs]

/-- C8 fixture: an empty database (so any image pk is dangling). -/
def db8 : DB := ⟨[], [], [], [], []⟩

/-- C8 fixture: a page with a foreign key to the nonexistent image 7. -/
def page8 : PageRec :=
  ⟨1, [1, 1, 1, 1], true, "page", "tests",
   [FieldValue.fk ModelRef.image (some 7)]⟩

/-- Witness for C8 at a concrete input: the dangling image reference makes
both the walk and the asset-following build fail with `DoesNotExist`. -/
theorem c8_dangling_fk_lookup_failure_witness :
    walk_page_foreign_key_objects db8 page8 =
      ([], some ExportErr.doesNotExist) ∧
    build_page_data db8 1 [page8] none none true =
      .error ExportErr.doesNotExist := by
  have h := c8_dangling_fk_lookup_failure db8 page8 ModelRef.image 7 [] rfl rfl
  exact ⟨h.1, h.2 0 none none⟩

/-! ## Claim C9 -/

/-- Claim C9: for a store holding exactly the chain `A -> B -> C` (each
child's path one `steplen`-step extension of its parent's), all live,
exporting from root `A` with assets disabled returns a pages collection
holding exactly the serialized records of `A`, `B` and `C`, in that
order. -/
theorem c9_chain_export_in_order (db : DB) (fuel : Nat) (A B C : PageRec)
    (hdb : db.pages = [A, B, C])
    (hlA : A.live = true) (hlB : B.live = true) (hlC : C.live = true)
    (hpB : parentPath B.path = A.path)
    (hnB : B.path.length = A.path.length + steplen)
    (hpC : parentPath C.path = B.path)
    (hnC : C.path.length = B.path.length + steplen) :
    export_pages db (fuel + 1) A false false =
      .ok ⟨[get_one_page_data A, get_one_page_data B, get_one_page_data C],
           [], [], []⟩ := by
  have htB : B.path.take A.path.length = A.path := by
    have hlen : B.path.length - steplen = A.path.length := by omega
    rw [← hlen]; exact hpB
  have htC : C.path.take B.path.length = B.path := by
    have hlen : C.path.length - steplen = B.path.length := by omega
    rw [← hlen]; exact hpC
  have htAC : C.path.take A.path.length = A.path := by
    have h2 : (C.path.take B.path.length).take A.path.length =
        C.path.take A.path.length := by
      rw [List.take_take]; congr 1; omega
    rw [← h2, htC, htB]
  have hsl : steplen = 4 := rfl
  have neBA : B.path ≠ A.path := by
    intro h; have := congrArg List.length h; omega
  have neCA : C.path ≠ A.path := by
    intro h; have := congrArg List.length h; omega
  have neCB : C.path ≠ B.path := by
    intro h; have := congrArg List.length h; omega
  have bBA : (B.path == A.path) = false := beq_eq_false_iff_ne.mpr neBA
  have bCA : (C.path == A.path) = false := beq_eq_false_iff_ne.mpr neCA
  have bCB : (C.path == B.path) = false := beq_eq_false_iff_ne.mpr neCB
  have uAA : underPath A.path A.path = true := underPath_of_take (by simp)
  have uAB : underPath A.path B.path = true := underPath_of_take htB
  have uAC : underPath A.path C.path = true := underPath_of_take htAC
  have leAB : pathLe A.path B.path = true := pathLe_of_take htB
  have leBC : pathLe B.path C.path = true := pathLe_of_take htC
  have hcand : candidatePages db A false = [A, B, C] := by
    unfold candidatePages descendantsOf
    rw [hdb]
    simp [List.filter, uAA, uAB, uAC, sortByPath, insertByPath, leAB, leBC,
      hlA, hlB, hlC]
  unfold export_pages
  rw [hcand]
  simp [build_page_data, buildLoop, pathIn, hpB, hpC, bBA, bCA, bCB,
    emptyPageData]

/-- C9 fixture: the root of a concrete three-page chain. -/
def A9 : PageRec := ⟨1, [1, 1, 1, 1], true, "home", "tests", []⟩

/-- C9 fixture: the middle page of the chain. -/
def B9 : PageRec := ⟨2, [1, 1, 1, 1, 2, 2, 2, 2], true, "page", "tests", []⟩

/-- C9 fixture: the leaf of the chain. -/
def C9pg : PageRec :=
  ⟨3, [1, 1, 1, 1, 2, 2, 2, 2, 3, 3, 3, 3], true, "page", "tests", []⟩

/-- C9 fixture database. -/
def db9 : DB := ⟨[A9, B9, C9pg], [], [], [], []⟩

/-- Witness for C9 at a concrete three-page chain. -/
theorem c9_chain_export_in_order_witness :
    export_pages db9 1 A9 false false =
      .ok ⟨[get_one_page_data A9, get_one_page_data B9,
            get_one_page_data C9pg], [], [], []⟩ :=
  c9_chain_export_in_order db9 0 A9 B9 C9pg rfl rfl rfl rfl rfl rfl rfl rfl

/-! ## Claim C10 -/

/-- Claim C10: any `build_page_data` run with the `page_data` accumulator
defaulted (as in every `export_pages` call) and
`include_linked_assets=False` succeeds and returns the four-collection
record with `images`, `snippets` and `documents` all empty — only the
`pages` collection is ever touched; the same holds for the result of a
successful `export_pages` run without linked assets, for any root and
either publication filter. -/
theorem c10_asset_collections_empty (db : DB) (fuel : Nat)
    (pages : List PageRec) (ep0 : Option (List PagePath)) (root : PageRec)
    (eu : Bool) :
    (∃ ps ep, build_page_data db (fuel + 1) pages ep0 none false =
      .ok (⟨ps, [], [], []⟩, ep)) ∧
    (∃ ps, export_pages db (fuel + 1) root eu false =
      .ok ⟨ps, [], [], []⟩) := by
  constructor
  · obtain ⟨ps2, ep2, hh⟩ := buildLoop_no_assets db
      (fun ps ep pd => build_page_data db fuel ps (some ep) (some pd) false)
      pages 0 (ep0.getD []) []
    exact ⟨ps2, ep2, hh⟩
  · obtain ⟨ps2, ep2, hh⟩ := buildLoop_no_assets db
      (fun ps ep pd => build_page_data db fuel ps (some ep) (some pd) false)
      (candidatePages db root eu) 0 [] []
    refine ⟨ps2, ?_⟩
    unfold export_pages
    have hb : build_page_data db (fuel + 1) (candidatePages db root eu) none
        none false = .ok (⟨ps2, [], [], []⟩, ep2) := hh
    rw [hb]
    rfl
